import Mathlib

/-!
Verification of the polyhedron rendering component of vuunguuyen.github.io.

The repository ships three revisions of the same component:
  * js/polyhedron.js, first half  — version 3.0.0 (plain JS);
  * src/polyhedron.ts             — version 3.0.0 (TypeScript port, identical
    handler and generator bodies);
  * js/polyhedron.js, second half — version 3.1.0 (optimized TypeScript).

This file gives a shallow embedding of the numeric geometry (over ℝ, the
idealization of the JS float arithmetic), the edge-list generation (over ℕ),
and the pointer interaction state machines (over ℚ/Bool, executable), and
proves the specification claims about them.
-/

set_option maxRecDepth 10000

/-! ### Basic 3D values

Points are triples of reals; a rotation is an Euler angle triple, matching
the Rotation record of the source. -/

/-- A 3D point, source type Vec3 / Point3D. -/
abbrev R3 : Type := ℝ × ℝ × ℝ

/-- Euler rotation triple, source interface Rotation. -/
structure Rotation where
  x : ℝ
  y : ℝ
  z : ℝ

/-- Source constant PHI = (1 + Math.sqrt(5)) / 2. -/
noncomputable def PHI : ℝ := (1 + Real.sqrt 5) / 2

/-- Source constant invPhi = 1 / PHI (generateTruncatedDodecahedron). -/
noncomputable def invPhi : ℝ := 1 / PHI

/-- Source constant PYRAMID_HEIGHT = 0.32. -/
noncomputable def PYRAMID_HEIGHT : ℝ := 0.32

/-- Source constant DUAL_SCALE = 1.35. -/
noncomputable def DUAL_SCALE : ℝ := 1.35

/-! ### Rotation pipeline (js/polyhedron.js lines 321-347, src/polyhedron.ts
lines 285-311, and the fused version at js/polyhedron.js lines 1089-1101). -/

/-- rotateX: rotation about the x axis. -/
noncomputable def rotateX (p : R3) (angle : ℝ) : R3 :=
  (p.1, p.2.1 * Real.cos angle - p.2.2 * Real.sin angle,
   p.2.1 * Real.sin angle + p.2.2 * Real.cos angle)

/-- rotateY: rotation about the y axis. -/
noncomputable def rotateY (p : R3) (angle : ℝ) : R3 :=
  (p.1 * Real.cos angle + p.2.2 * Real.sin angle, p.2.1,
   -p.1 * Real.sin angle + p.2.2 * Real.cos angle)

/-- rotateZ: rotation about the z axis. -/
noncomputable def rotateZ (p : R3) (angle : ℝ) : R3 :=
  (p.1 * Real.cos angle - p.2.1 * Real.sin angle,
   p.1 * Real.sin angle + p.2.1 * Real.cos angle, p.2.2)

/-- rotatePoint of the v3.0 sources: apply rotateX, then rotateY, then
rotateZ. -/
noncomputable def rotatePoint (p : R3) (r : Rotation) : R3 :=
  rotateZ (rotateY (rotateX p r.x) r.y) r.z

/-- rotatePoint of the optimized v3.1 source (js/polyhedron.js lines
1089-1101): the three matrix products fused into one closed form. -/
noncomputable def rotatePointFused (p : R3) (r : Rotation) : R3 :=
  let cx := Real.cos r.x; let sx := Real.sin r.x
  let cy := Real.cos r.y; let sy := Real.sin r.y
  let cz := Real.cos r.z; let sz := Real.sin r.z
  let y1 := p.2.1 * cx - p.2.2 * sx
  let z1 := p.2.1 * sx + p.2.2 * cx
  let x2 := p.1 * cy + z1 * sy
  let z2 := -p.1 * sy + z1 * cy
  (x2 * cz - y1 * sz, x2 * sz + y1 * cz, z2)

/-- Euclidean norm of a 3D point, as computed by the source normalize
function: Math.sqrt(x*x + y*y + z*z). -/
noncomputable def norm3 (p : R3) : ℝ :=
  Real.sqrt (p.1 * p.1 + p.2.1 * p.2.1 + p.2.2 * p.2.2)

/-! ### Display modes (js/polyhedron.js lines 829-837 and 1444-1450). -/

/-- The display mode enumeration: which solids are visible. -/
inductive Mode where
  | inner : Mode
  | outer : Mode
  | both : Mode
deriving DecidableEq, BEq

/-- The modes array of cycleDisplayMode. -/
def modes : List Mode := [Mode.inner, Mode.outer, Mode.both]

/-- cycleDisplayMode mode transition: modes[(modes.indexOf(current) + 1) %
modes.length].  (The source function also updates the DOM visibility and the
transient label; those effects are outside the numeric model.) -/
def cycleDisplayMode (m : Mode) : Mode :=
  modes.getD ((modes.indexOf m + 1) % modes.length) Mode.inner

/-! ### Triakis icosahedron geometry (js/polyhedron.js lines 93-185,
src/polyhedron.ts lines 108-197). -/

/-- Source normalize: divide a vector by its Euclidean length.  (Named
normalize3 here; plain normalize is taken by Mathlib.) -/
noncomputable def normalize3 (v : R3) : R3 :=
  let len := Real.sqrt (v.1 * v.1 + v.2.1 * v.2.1 + v.2.2 * v.2.2)
  (v.1 / len, v.2.1 / len, v.2.2 / len)

/-- Source centroid of a triangle. -/
noncomputable def centroid (v0 v1 v2 : R3) : R3 :=
  ((v0.1 + v1.1 + v2.1) / 3, (v0.2.1 + v1.2.1 + v2.2.1) / 3,
   (v0.2.2 + v1.2.2 + v2.2.2) / 3)

/-- Source table ICO_VERTICES: the 12 icosahedron vertices. -/
noncomputable def ICO_VERTICES : List R3 :=
  [(-1, PHI, 0), (1, PHI, 0), (-1, -PHI, 0), (1, -PHI, 0),
   (0, -1, PHI), (0, 1, PHI), (0, -1, -PHI), (0, 1, -PHI),
   (PHI, 0, -1), (PHI, 0, 1), (-PHI, 0, -1), (-PHI, 0, 1)]

/-- Source table ICO_FACES: the 20 triangular faces, as vertex index
triples. -/
def ICO_FACES : List (ℕ × ℕ × ℕ) :=
  [(0, 11, 5), (0, 5, 1), (0, 1, 7), (0, 7, 10), (0, 10, 11),
   (1, 5, 9), (5, 11, 4), (11, 10, 2), (10, 7, 6), (7, 1, 8),
   (3, 9, 4), (3, 4, 2), (3, 2, 6), (3, 6, 8), (3, 8, 9),
   (4, 9, 5), (2, 4, 11), (6, 2, 10), (8, 6, 7), (9, 8, 1)]

/-- Source addEdge: deduplicating edge insertion.  The JS versions key the
set by the string min + "-" + max (v3.0) or by the packed integer
min << 16 | max (v3.1); both keys are injective on index pairs, so the set
is faithfully modelled as an insertion-ordered duplicate-free list of
normalized (min, max) pairs. -/
def addEdge (es : List (ℕ × ℕ)) (i1 i2 : ℕ) : List (ℕ × ℕ) :=
  let key := if i1 < i2 then (i1, i2) else (i2, i1)
  if key ∈ es then es else es ++ [key]

/-- The base icosahedron vertices, normalized to the unit sphere
(baseVertices in generateTriakisIcosahedron). -/
noncomputable def baseVertices : List R3 := ICO_VERTICES.map normalize3

/-- One iteration of the face loop of generateTriakisIcosahedron: push the
pyramid apex vertex for the face, then record the three apex edges and the
three base edges, in source order. -/
noncomputable def triakisFaceStep (acc : List R3 × List (ℕ × ℕ))
    (face : ℕ × ℕ × ℕ) : List R3 × List (ℕ × ℕ) :=
  let v0 := baseVertices.getD face.1 (0, 0, 0)
  let v1 := baseVertices.getD face.2.1 (0, 0, 0)
  let v2 := baseVertices.getD face.2.2 (0, 0, 0)
  let center := centroid v0 v1 v2
  let normal := normalize3 center
  let pyramidVertex : R3 :=
    (normal.1 * (1 + PYRAMID_HEIGHT), normal.2.1 * (1 + PYRAMID_HEIGHT),
     normal.2.2 * (1 + PYRAMID_HEIGHT))
  let newIndex := acc.1.length
  (acc.1 ++ [pyramidVertex],
   addEdge (addEdge (addEdge (addEdge (addEdge (addEdge acc.2
     newIndex face.1) newIndex face.2.1) newIndex face.2.2)
     face.1 face.2.1) face.2.1 face.2.2) face.2.2 face.1)

/-- generateTriakisIcosahedron (js/polyhedron.js lines 133-185): start from
the 12 normalized base vertices and an empty edge set, then process the 20
faces in order.  Returns (vertices, edges). -/
noncomputable def generateTriakisIcosahedron : List R3 × List (ℕ × ℕ) :=
  ICO_FACES.foldl triakisFaceStep (baseVertices, [])

/-- Index-only image of triakisFaceStep: the edge bookkeeping depends on the
vertex list only through its length, which this step tracks directly. -/
def triakisFaceStepN (acc : ℕ × List (ℕ × ℕ)) (face : ℕ × ℕ × ℕ) :
    ℕ × List (ℕ × ℕ) :=
  (acc.1 + 1,
   addEdge (addEdge (addEdge (addEdge (addEdge (addEdge acc.2
     acc.1 face.1) acc.1 face.2.1) acc.1 face.2.2)
     face.1 face.2.1) face.2.1 face.2.2) face.2.2 face.1)

/-- The executable edge computation of generateTriakisIcosahedron: vertex
count together with the deduplicated edge list. -/
def triakisN : ℕ × List (ℕ × ℕ) := ICO_FACES.foldl triakisFaceStepN (12, [])

/-! ### Truncated dodecahedron geometry (js/polyhedron.js lines 192-284,
src/polyhedron.ts lines 199-279). -/

/-- Source local constant twoPhi = 2 * PHI. -/
noncomputable def twoPhi : ℝ := 2 * PHI

/-- Source local constant phiPlusOne = PHI + 1. -/
noncomputable def phiPlusOne : ℝ := PHI + 1

/-- Source local constant twoPhiPlusOne = 2 + PHI. -/
noncomputable def twoPhiPlusOne : ℝ := 2 + PHI

/-- Source table coords of generateTruncatedDodecahedron: the 60 raw vertex
coordinates of the truncated dodecahedron, in source order. -/
noncomputable def dualRawCoords : List R3 :=
  [(0, invPhi, twoPhiPlusOne), (0, invPhi, -twoPhiPlusOne),
   (0, -invPhi, twoPhiPlusOne), (0, -invPhi, -twoPhiPlusOne),
   (twoPhiPlusOne, 0, invPhi), (twoPhiPlusOne, 0, -invPhi),
   (-twoPhiPlusOne, 0, invPhi), (-twoPhiPlusOne, 0, -invPhi),
   (invPhi, twoPhiPlusOne, 0), (invPhi, -twoPhiPlusOne, 0),
   (-invPhi, twoPhiPlusOne, 0), (-invPhi, -twoPhiPlusOne, 0),
   (invPhi, PHI, twoPhi), (invPhi, PHI, -twoPhi),
   (invPhi, -PHI, twoPhi), (invPhi, -PHI, -twoPhi),
   (-invPhi, PHI, twoPhi), (-invPhi, PHI, -twoPhi),
   (-invPhi, -PHI, twoPhi), (-invPhi, -PHI, -twoPhi),
   (twoPhi, invPhi, PHI), (twoPhi, invPhi, -PHI),
   (twoPhi, -invPhi, PHI), (twoPhi, -invPhi, -PHI),
   (-twoPhi, invPhi, PHI), (-twoPhi, invPhi, -PHI),
   (-twoPhi, -invPhi, PHI), (-twoPhi, -invPhi, -PHI),
   (PHI, twoPhi, invPhi), (PHI, twoPhi, -invPhi),
   (PHI, -twoPhi, invPhi), (PHI, -twoPhi, -invPhi),
   (-PHI, twoPhi, invPhi), (-PHI, twoPhi, -invPhi),
   (-PHI, -twoPhi, invPhi), (-PHI, -twoPhi, -invPhi),
   (PHI, 2, phiPlusOne), (PHI, 2, -phiPlusOne),
   (PHI, -2, phiPlusOne), (PHI, -2, -phiPlusOne),
   (-PHI, 2, phiPlusOne), (-PHI, 2, -phiPlusOne),
   (-PHI, -2, phiPlusOne), (-PHI, -2, -phiPlusOne),
   (phiPlusOne, PHI, 2), (phiPlusOne, PHI, -2),
   (phiPlusOne, -PHI, 2), (phiPlusOne, -PHI, -2),
   (-phiPlusOne, PHI, 2), (-phiPlusOne, PHI, -2),
   (-phiPlusOne, -PHI, 2), (-phiPlusOne, -PHI, -2),
   (2, phiPlusOne, PHI), (2, phiPlusOne, -PHI),
   (2, -phiPlusOne, PHI), (2, -phiPlusOne, -PHI),
   (-2, phiPlusOne, PHI), (-2, phiPlusOne, -PHI),
   (-2, -phiPlusOne, PHI), (-2, -phiPlusOne, -PHI)]

/-- Source maxDist: the maximum Euclidean norm among the raw coordinates
(Math.max over the mapped norms; the fold starts at 0, which is below every
norm, so it agrees with the JS -Infinity start). -/
noncomputable def dualMaxDist : ℝ := (dualRawCoords.map norm3).foldl max 0

/-- The scaled dual vertices: each raw coordinate divided by maxDist and
multiplied by DUAL_SCALE. -/
noncomputable def dualVertices : List R3 :=
  dualRawCoords.map fun v =>
    (v.1 / dualMaxDist * DUAL_SCALE, v.2.1 / dualMaxDist * DUAL_SCALE,
     v.2.2 / dualMaxDist * DUAL_SCALE)

/-- Source edgeLength = 2 * invPhi / maxDist * DUAL_SCALE * 1.1, the
proximity threshold for edge detection. -/
noncomputable def dualEdgeLength : ℝ :=
  2 * invPhi / dualMaxDist * DUAL_SCALE * 1.1

/-- Euclidean distance between two points, as computed in the edge loop:
Math.sqrt(dx*dx + dy*dy + dz*dz). -/
noncomputable def dist3 (p q : R3) : ℝ :=
  Real.sqrt ((p.1 - q.1) * (p.1 - q.1) + (p.2.1 - q.2.1) * (p.2.1 - q.2.1) +
    (p.2.2 - q.2.2) * (p.2.2 - q.2.2))

/-- The edge loop of generateTruncatedDodecahedron: for every i and every
j from i+1 up, connect i and j when their distance is below edgeLength. -/
noncomputable def dualEdges : List (ℕ × ℕ) :=
  (List.range dualVertices.length).foldl (fun es i =>
    (List.range' (i + 1) (dualVertices.length - (i + 1))).foldl (fun es2 j =>
      if dist3 (dualVertices.getD i (0, 0, 0)) (dualVertices.getD j (0, 0, 0))
          < dualEdgeLength
      then addEdge es2 i j else es2) es) []

/-- generateTruncatedDodecahedron (js/polyhedron.js lines 192-284): the
scaled vertices together with the proximity-derived edge list. -/
noncomputable def generateTruncatedDodecahedron : List R3 × List (ℕ × ℕ) :=
  (dualVertices, dualEdges)

/-! ### Exact arithmetic mirror of the dual geometry.

Every raw coordinate of the truncated dodecahedron table is of the form
(a + b * sqrt 5) / 2 for integers a, b.  The integer pair table below
mirrors dualRawCoords entry by entry, which makes the proximity comparisons
of the edge loop decidable by integer arithmetic. -/

/-- Value of an integer pair (a, b) as the real (a + b * sqrt 5) / 2. -/
noncomputable def hval (p : ℤ × ℤ) : ℝ :=
  ((p.1 : ℝ) + (p.2 : ℝ) * Real.sqrt 5) / 2

/-- Componentwise hval on a coordinate triple. -/
noncomputable def hval3 (t : (ℤ × ℤ) × (ℤ × ℤ) × (ℤ × ℤ)) : R3 :=
  (hval t.1, hval t.2.1, hval t.2.2)

/-- Integer-pair mirror of dualRawCoords: entry i equals dualRawCoords
entry i under hval3 (0 is (0,0), invPhi is (-1,1), PHI is (1,1), twoPhi is
(2,2), phiPlusOne is (3,1), twoPhiPlusOne is (5,1), 2 is (4,0), negations
negate both components). -/
def dualRawCoordsZ : List ((ℤ × ℤ) × (ℤ × ℤ) × (ℤ × ℤ)) :=
  [((0, 0), (-1, 1), (5, 1)),
   ((0, 0), (-1, 1), (-5, -1)),
   ((0, 0), (1, -1), (5, 1)),
   ((0, 0), (1, -1), (-5, -1)),
   ((5, 1), (0, 0), (-1, 1)),
   ((5, 1), (0, 0), (1, -1)),
   ((-5, -1), (0, 0), (-1, 1)),
   ((-5, -1), (0, 0), (1, -1)),
   ((-1, 1), (5, 1), (0, 0)),
   ((-1, 1), (-5, -1), (0, 0)),
   ((1, -1), (5, 1), (0, 0)),
   ((1, -1), (-5, -1), (0, 0)),
   ((-1, 1), (1, 1), (2, 2)),
   ((-1, 1), (1, 1), (-2, -2)),
   ((-1, 1), (-1, -1), (2, 2)),
   ((-1, 1), (-1, -1), (-2, -2)),
   ((1, -1), (1, 1), (2, 2)),
   ((1, -1), (1, 1), (-2, -2)),
   ((1, -1), (-1, -1), (2, 2)),
   ((1, -1), (-1, -1), (-2, -2)),
   ((2, 2), (-1, 1), (1, 1)),
   ((2, 2), (-1, 1), (-1, -1)),
   ((2, 2), (1, -1), (1, 1)),
   ((2, 2), (1, -1), (-1, -1)),
   ((-2, -2), (-1, 1), (1, 1)),
   ((-2, -2), (-1, 1), (-1, -1)),
   ((-2, -2), (1, -1), (1, 1)),
   ((-2, -2), (1, -1), (-1, -1)),
   ((1, 1), (2, 2), (-1, 1)),
   ((1, 1), (2, 2), (1, -1)),
   ((1, 1), (-2, -2), (-1, 1)),
   ((1, 1), (-2, -2), (1, -1)),
   ((-1, -1), (2, 2), (-1, 1)),
   ((-1, -1), (2, 2), (1, -1)),
   ((-1, -1), (-2, -2), (-1, 1)),
   ((-1, -1), (-2, -2), (1, -1)),
   ((1, 1), (4, 0), (3, 1)),
   ((1, 1), (4, 0), (-3, -1)),
   ((1, 1), (-4, 0), (3, 1)),
   ((1, 1), (-4, 0), (-3, -1)),
   ((-1, -1), (4, 0), (3, 1)),
   ((-1, -1), (4, 0), (-3, -1)),
   ((-1, -1), (-4, 0), (3, 1)),
   ((-1, -1), (-4, 0), (-3, -1)),
   ((3, 1), (1, 1), (4, 0)),
   ((3, 1), (1, 1), (-4, 0)),
   ((3, 1), (-1, -1), (4, 0)),
   ((3, 1), (-1, -1), (-4, 0)),
   ((-3, -1), (1, 1), (4, 0)),
   ((-3, -1), (1, 1), (-4, 0)),
   ((-3, -1), (-1, -1), (4, 0)),
   ((-3, -1), (-1, -1), (-4, 0)),
   ((4, 0), (3, 1), (1, 1)),
   ((4, 0), (3, 1), (-1, -1)),
   ((4, 0), (-3, -1), (1, 1)),
   ((4, 0), (-3, -1), (-1, -1)),
   ((-4, 0), (3, 1), (1, 1)),
   ((-4, 0), (3, 1), (-1, -1)),
   ((-4, 0), (-3, -1), (1, 1)),
   ((-4, 0), (-3, -1), (-1, -1))]

/-- Decision procedure for the sign of u + v * sqrt 5: true iff it is
negative. -/
def negSqrt5 (u v : ℤ) : Bool :=
  if 0 < v then decide (u < 0) && decide (5 * (v * v) < u * u)
  else if v < 0 then decide (u ≤ 0) || decide (u * u < 5 * (v * v))
  else decide (u < 0)

/-- Exact squared raw distance between table entries i and j, as the pair
(A, B) with distance squared equal to (A + B * sqrt 5) / 4. -/
def distNumZ (i j : ℕ) : ℤ × ℤ :=
  let p := dualRawCoordsZ.getD i ((0, 0), (0, 0), (0, 0))
  let q := dualRawCoordsZ.getD j ((0, 0), (0, 0), (0, 0))
  let da1 := p.1.1 - q.1.1; let db1 := p.1.2 - q.1.2
  let da2 := p.2.1.1 - q.2.1.1; let db2 := p.2.1.2 - q.2.1.2
  let da3 := p.2.2.1 - q.2.2.1; let db3 := p.2.2.2 - q.2.2.2
  (da1 * da1 + 5 * (db1 * db1) + (da2 * da2 + 5 * (db2 * db2)) +
    (da3 * da3 + 5 * (db3 * db3)),
   2 * (da1 * db1) + (2 * (da2 * db2) + 2 * (da3 * db3)))

/-- Decidable form of the proximity test of the dual edge loop: the raw
squared distance (A + B sqrt 5)/4 is below the squared raw threshold
(2 * invPhi * 1.1)^2 = (363 - 121 sqrt 5)/50 iff
(25A - 726) + (25B + 242) sqrt 5 is negative. -/
def dualEdgeCondZ (i j : ℕ) : Bool :=
  negSqrt5 (25 * (distNumZ i j).1 - 726) (25 * (distNumZ i j).2 + 242)

/-- Executable mirror of the dual edge loop, using the decidable proximity
test. -/
def dualEdgesZ : List (ℕ × ℕ) :=
  (List.range 60).foldl (fun es i =>
    (List.range' (i + 1) (60 - (i + 1))).foldl (fun es2 j =>
      if dualEdgeCondZ i j then addEdge es2 i j else es2) es) []

/-! ### Algebra of sqrt 5 and the table correspondence. -/

theorem sqrt5_sq : Real.sqrt 5 ^ 2 = 5 := Real.sq_sqrt (by norm_num)

theorem sqrt5_pos : 0 < Real.sqrt 5 := Real.sqrt_pos.mpr (by norm_num)

theorem PHI_pos : 0 < PHI := by
  rw [PHI]; positivity

theorem invPhi_eq : invPhi = (-1 + Real.sqrt 5) / 2 := by
  have h5 := sqrt5_sq
  have hphi : PHI ≠ 0 := ne_of_gt PHI_pos
  rw [invPhi, div_eq_iff hphi, PHI]
  linear_combination (-(1 : ℝ) / 4) * h5

theorem invPhi_pos : 0 < invPhi := by
  have h5 := sqrt5_sq
  have hs := sqrt5_pos
  rw [invPhi_eq]
  nlinarith

theorem hval_zero : hval (0, 0) = 0 := by simp [hval]

theorem hval_invPhi : hval (-1, 1) = invPhi := by
  rw [hval, invPhi_eq]; push_cast; ring

theorem hval_neg_invPhi : hval (1, -1) = -invPhi := by
  rw [hval, invPhi_eq]; push_cast; ring

theorem hval_PHI : hval (1, 1) = PHI := by
  rw [hval, PHI]; push_cast; ring

theorem hval_neg_PHI : hval (-1, -1) = -PHI := by
  rw [hval, PHI]; push_cast; ring

theorem hval_twoPhi : hval (2, 2) = twoPhi := by
  rw [hval, twoPhi, PHI]; push_cast; ring

theorem hval_neg_twoPhi : hval (-2, -2) = -twoPhi := by
  rw [hval, twoPhi, PHI]; push_cast; ring

theorem hval_phiPlusOne : hval (3, 1) = phiPlusOne := by
  rw [hval, phiPlusOne, PHI]; push_cast; ring

theorem hval_neg_phiPlusOne : hval (-3, -1) = -phiPlusOne := by
  rw [hval, phiPlusOne, PHI]; push_cast; ring

theorem hval_twoPhiPlusOne : hval (5, 1) = twoPhiPlusOne := by
  rw [hval, twoPhiPlusOne, PHI]; push_cast; ring

theorem hval_neg_twoPhiPlusOne : hval (-5, -1) = -twoPhiPlusOne := by
  rw [hval, twoPhiPlusOne, PHI]; push_cast; ring

theorem hval_two : hval (4, 0) = 2 := by
  rw [hval]; push_cast; ring

theorem hval_neg_two : hval (-4, 0) = -2 := by
  rw [hval]; push_cast; ring

theorem dualRawCoords_eq : dualRawCoords = dualRawCoordsZ.map hval3 := by
  rw [dualRawCoords]
  simp only [dualRawCoordsZ, List.map_cons, List.map_nil, hval3,
    hval_zero, hval_invPhi, hval_neg_invPhi, hval_PHI, hval_neg_PHI,
    hval_twoPhi, hval_neg_twoPhi, hval_phiPlusOne, hval_neg_phiPlusOne,
    hval_twoPhiPlusOne, hval_neg_twoPhiPlusOne, hval_two, hval_neg_two]

theorem dualRawCoordsZ_length : dualRawCoordsZ.length = 60 := by rfl

theorem dualRawCoords_length : dualRawCoords.length = 60 := by
  rw [dualRawCoords_eq, List.length_map, dualRawCoordsZ_length]

theorem dualVertices_length : dualVertices.length = 60 := by
  rw [dualVertices, List.length_map, dualRawCoords_length]

theorem foldl_max_init_le (l : List ℝ) (a : ℝ) : a ≤ l.foldl max a := by
  induction l generalizing a with
  | nil => exact le_refl a
  | cons b t ih => exact le_trans (le_max_left a b) (ih (max a b))

theorem le_foldl_max_of_mem {x : ℝ} {l : List ℝ} (h : x ∈ l) (a : ℝ) :
    x ≤ l.foldl max a := by
  induction l generalizing a with
  | nil => cases h
  | cons b t ih =>
    rw [List.foldl_cons]
    rcases List.mem_cons.mp h with h1 | h2
    · rw [h1]
      exact le_trans (le_max_right a b) (foldl_max_init_le t (max a b))
    · exact ih h2 (max a b)

theorem dualMaxDist_pos : 0 < dualMaxDist := by
  have hmem : ((0 : ℝ), invPhi, twoPhiPlusOne) ∈ dualRawCoords := by
    rw [dualRawCoords]; exact List.mem_cons_self _ _
  have hmem2 : norm3 ((0 : ℝ), invPhi, twoPhiPlusOne) ∈ dualRawCoords.map norm3 :=
    List.mem_map_of_mem norm3 hmem
  have hpos : 0 < norm3 ((0 : ℝ), invPhi, twoPhiPlusOne) := by
    rw [norm3]
    apply Real.sqrt_pos.mpr
    have h1 := invPhi_pos
    nlinarith [mul_self_nonneg twoPhiPlusOne]
  exact lt_of_lt_of_le hpos (le_foldl_max_of_mem hmem2 0)

theorem getD_map_of_lt {α β : Type} (l : List α) (f : α → β) (i : ℕ)
    (d : α) (d2 : β) (h : i < l.length) :
    (l.map f).getD i d2 = f (l.getD i d) := by
  rw [List.getD_eq_getElem?_getD, List.getD_eq_getElem?_getD, List.getElem?_map,
    List.getElem?_eq_getElem h]
  rfl

theorem hval_sub_sq (p q : ℤ × ℤ) :
    (hval p - hval q) * (hval p - hval q) =
      (((p.1 - q.1) * (p.1 - q.1) + 5 * ((p.2 - q.2) * (p.2 - q.2)) : ℤ) +
        ((2 * ((p.1 - q.1) * (p.2 - q.2)) : ℤ) : ℝ) * Real.sqrt 5) / 4 := by
  have h5 := sqrt5_sq
  rw [hval, hval]
  push_cast
  linear_combination (((p.2 : ℝ) - (q.2 : ℝ)) ^ 2 / 4) * h5

theorem negSqrt5_iff (u v : ℤ) :
    ((u : ℝ) + (v : ℝ) * Real.sqrt 5 < 0) ↔ negSqrt5 u v = true := by
  have h5 := sqrt5_sq
  have hs := sqrt5_pos
  rw [negSqrt5]
  split_ifs with h1 h2
  · -- 0 < v
    have hv : (0 : ℝ) < (v : ℝ) := by exact_mod_cast h1
    simp only [Bool.and_eq_true, decide_eq_true_eq]
    constructor
    · intro h
      have hvs : 0 < (v : ℝ) * Real.sqrt 5 := mul_pos hv hs
      have hu : (u : ℝ) < 0 := by linarith
      have hu2 : (u - v * Real.sqrt 5 : ℝ) < 0 := by linarith
      have key : 0 < (-(u + v * Real.sqrt 5)) * (-(u - v * Real.sqrt 5) : ℝ) :=
        mul_pos (by linarith) (by linarith)
      have exp : (-(u + v * Real.sqrt 5)) * (-(u - v * Real.sqrt 5) : ℝ) =
          (u : ℝ) ^ 2 - 5 * (v : ℝ) ^ 2 := by
        linear_combination (-(v : ℝ) ^ 2) * h5
      constructor
      · exact_mod_cast hu
      · have : 5 * ((v : ℝ) * (v : ℝ)) < (u : ℝ) * (u : ℝ) := by nlinarith
        exact_mod_cast this
    · rintro ⟨hu, hq⟩
      have hu' : (u : ℝ) < 0 := by exact_mod_cast hu
      have hq' : 5 * ((v : ℝ) * (v : ℝ)) < (u : ℝ) * (u : ℝ) := by exact_mod_cast hq
      have hlt : (v : ℝ) * Real.sqrt 5 < -(u : ℝ) := by
        apply lt_of_pow_lt_pow_left₀ 2 (by linarith)
        rw [mul_pow, h5]
        nlinarith
      linarith
  · -- v < 0
    have hv : (v : ℝ) < 0 := by exact_mod_cast h2
    simp only [Bool.or_eq_true, decide_eq_true_eq]
    constructor
    · intro h
      rcases le_or_lt u 0 with hu | hu
      · exact Or.inl hu
      · right
        have hu' : (0 : ℝ) < (u : ℝ) := by exact_mod_cast hu
        have hlt : (u : ℝ) < (-(v : ℝ)) * Real.sqrt 5 := by linarith
        have hp := pow_lt_pow_left₀ hlt (le_of_lt hu') (two_ne_zero)
        rw [mul_pow, h5] at hp
        have : (u : ℝ) * (u : ℝ) < 5 * ((v : ℝ) * (v : ℝ)) := by nlinarith
        exact_mod_cast this
    · intro h
      rcases h with hu | hq
      · have hu' : (u : ℝ) ≤ 0 := by exact_mod_cast hu
        have : (v : ℝ) * Real.sqrt 5 < 0 := mul_neg_of_neg_of_pos hv hs
        linarith
      · have hq' : (u : ℝ) * (u : ℝ) < 5 * ((v : ℝ) * (v : ℝ)) := by exact_mod_cast hq
        have hvpos : 0 < (-(v : ℝ)) * Real.sqrt 5 := mul_pos (by linarith) hs
        rcases le_or_lt (u : ℝ) 0 with hu | hu
        · linarith
        · have hlt : (u : ℝ) < (-(v : ℝ)) * Real.sqrt 5 := by
            apply lt_of_pow_lt_pow_left₀ 2 (le_of_lt hvpos)
            rw [mul_pow, h5]
            nlinarith
          linarith
  · -- v = 0
    have hv : v = 0 := by omega
    subst hv
    simp only [Int.cast_zero, zero_mul, add_zero, decide_eq_true_eq]
    exact Iff.intro (fun h => by exact_mod_cast h) (fun h => by exact_mod_cast h)

theorem dualThresholdSq :
    (2 * invPhi * 1.1) ^ 2 = (363 - 121 * Real.sqrt 5) / 50 := by
  have h5 := sqrt5_sq
  rw [invPhi_eq]
  linear_combination (121 / 100 : ℝ) * h5

theorem sqrt_scaled_sum (k x1 x2 x3 : ℝ) (hk : 0 ≤ k) :
    Real.sqrt ((x1 * k) * (x1 * k) + (x2 * k) * (x2 * k) + (x3 * k) * (x3 * k)) =
      k * Real.sqrt (x1 * x1 + x2 * x2 + x3 * x3) := by
  rw [show (x1 * k) * (x1 * k) + (x2 * k) * (x2 * k) + (x3 * k) * (x3 * k) =
      k ^ 2 * (x1 * x1 + x2 * x2 + x3 * x3) by ring]
  rw [Real.sqrt_mul (sq_nonneg k), Real.sqrt_sq hk]

theorem dualCond_iff (i j : ℕ) (hi : i < 60) (hj : j < 60) :
    (dist3 (dualVertices.getD i (0, 0, 0)) (dualVertices.getD j (0, 0, 0)) <
      dualEdgeLength) ↔ dualEdgeCondZ i j = true := by
  have h5 := sqrt5_sq
  have hm := dualMaxDist_pos
  have hilen : i < dualRawCoords.length := by rw [dualRawCoords_length]; exact hi
  have hjlen : j < dualRawCoords.length := by rw [dualRawCoords_length]; exact hj
  have hizlen : i < dualRawCoordsZ.length := by rw [dualRawCoordsZ_length]; exact hi
  have hjzlen : j < dualRawCoordsZ.length := by rw [dualRawCoordsZ_length]; exact hj
  set zd : (ℤ × ℤ) × (ℤ × ℤ) × (ℤ × ℤ) := ((0, 0), (0, 0), (0, 0)) with hzd
  set p := dualRawCoordsZ.getD i zd with hp
  set q := dualRawCoordsZ.getD j zd with hq
  have hgi : dualVertices.getD i (0, 0, 0) =
      (hval p.1 / dualMaxDist * DUAL_SCALE,
       hval p.2.1 / dualMaxDist * DUAL_SCALE,
       hval p.2.2 / dualMaxDist * DUAL_SCALE) := by
    rw [dualVertices, getD_map_of_lt dualRawCoords _ i (0, 0, 0) (0, 0, 0) hilen]
    rw [dualRawCoords_eq, getD_map_of_lt dualRawCoordsZ hval3 i zd (0, 0, 0) hizlen]
    rfl
  have hgj : dualVertices.getD j (0, 0, 0) =
      (hval q.1 / dualMaxDist * DUAL_SCALE,
       hval q.2.1 / dualMaxDist * DUAL_SCALE,
       hval q.2.2 / dualMaxDist * DUAL_SCALE) := by
    rw [dualVertices, getD_map_of_lt dualRawCoords _ j (0, 0, 0) (0, 0, 0) hjlen]
    rw [dualRawCoords_eq, getD_map_of_lt dualRawCoordsZ hval3 j zd (0, 0, 0) hjzlen]
    rfl
  rw [hgi, hgj]
  set k := DUAL_SCALE / dualMaxDist with hk
  have hkpos : 0 < k := by
    apply div_pos _ hm
    rw [DUAL_SCALE]; norm_num
  have hd : dist3
      (hval p.1 / dualMaxDist * DUAL_SCALE,
       hval p.2.1 / dualMaxDist * DUAL_SCALE,
       hval p.2.2 / dualMaxDist * DUAL_SCALE)
      (hval q.1 / dualMaxDist * DUAL_SCALE,
       hval q.2.1 / dualMaxDist * DUAL_SCALE,
       hval q.2.2 / dualMaxDist * DUAL_SCALE) =
      k * Real.sqrt ((hval p.1 - hval q.1) * (hval p.1 - hval q.1) +
        (hval p.2.1 - hval q.2.1) * (hval p.2.1 - hval q.2.1) +
        (hval p.2.2 - hval q.2.2) * (hval p.2.2 - hval q.2.2)) := by
    rw [dist3]
    rw [show (hval p.1 / dualMaxDist * DUAL_SCALE - hval q.1 / dualMaxDist * DUAL_SCALE) =
        (hval p.1 - hval q.1) * k by rw [hk]; ring]
    rw [show (hval p.2.1 / dualMaxDist * DUAL_SCALE - hval q.2.1 / dualMaxDist * DUAL_SCALE) =
        (hval p.2.1 - hval q.2.1) * k by rw [hk]; ring]
    rw [show (hval p.2.2 / dualMaxDist * DUAL_SCALE - hval q.2.2 / dualMaxDist * DUAL_SCALE) =
        (hval p.2.2 - hval q.2.2) * k by rw [hk]; ring]
    exact sqrt_scaled_sum k _ _ _ (le_of_lt hkpos)
  have hEL : dualEdgeLength = k * (2 * invPhi * 1.1) := by
    rw [dualEdgeLength, hk]; ring
  rw [hd, hEL, mul_lt_mul_left hkpos]
  have hthr : (0 : ℝ) < 2 * invPhi * 1.1 := by nlinarith [invPhi_pos]
  rw [Real.sqrt_lt' hthr]
  have hSval : (hval p.1 - hval q.1) * (hval p.1 - hval q.1) +
      (hval p.2.1 - hval q.2.1) * (hval p.2.1 - hval q.2.1) +
      (hval p.2.2 - hval q.2.2) * (hval p.2.2 - hval q.2.2) =
      (((distNumZ i j).1 : ℝ) + ((distNumZ i j).2 : ℝ) * Real.sqrt 5) / 4 := by
    rw [hval_sub_sq p.1 q.1, hval_sub_sq p.2.1 q.2.1, hval_sub_sq p.2.2 q.2.2]
    rw [distNumZ, ← hp, ← hq]
    push_cast
    ring
  rw [hSval, dualThresholdSq]
  rw [show dualEdgeCondZ i j =
      negSqrt5 (25 * (distNumZ i j).1 - 726) (25 * (distNumZ i j).2 + 242) from rfl]
  rw [← negSqrt5_iff]
  push_cast
  constructor <;> intro h <;> linarith

theorem foldl_congr_mem {α β : Type} (l : List α) (f g : β → α → β) (b : β)
    (h : ∀ a ∈ l, ∀ x, f x a = g x a) : l.foldl f b = l.foldl g b := by
  induction l generalizing b with
  | nil => rfl
  | cons c t ih =>
    rw [List.foldl_cons, List.foldl_cons, h c (List.mem_cons_self c t)]
    exact ih (g b c) (fun a ha x => h a (List.mem_cons_of_mem c ha) x)

theorem dualEdges_eq_Z : dualEdges = dualEdgesZ := by
  rw [dualEdges, dualEdgesZ]
  simp only [dualVertices_length]
  apply foldl_congr_mem
  intro i hi es
  apply foldl_congr_mem
  intro j hj es2
  have hi60 : i < 60 := List.mem_range.mp hi
  have hj60 : j < 60 := by
    have hmem := List.mem_range'_1.mp hj
    omega
  exact if_congr (dualCond_iff i j hi60 hj60) rfl rfl

theorem triakis_fold_abs (faces : List (ℕ × ℕ × ℕ)) (vs : List R3)
    (es : List (ℕ × ℕ)) :
    (faces.foldl triakisFaceStep (vs, es)).1.length =
      (faces.foldl triakisFaceStepN (vs.length, es)).1 ∧
    (faces.foldl triakisFaceStep (vs, es)).2 =
      (faces.foldl triakisFaceStepN (vs.length, es)).2 := by
  induction faces generalizing vs es with
  | nil => exact ⟨rfl, rfl⟩
  | cons f t ih =>
    rw [List.foldl_cons, List.foldl_cons]
    have hstep : triakisFaceStepN (vs.length, es) f =
        ((triakisFaceStep (vs, es) f).1.length, (triakisFaceStep (vs, es) f).2) := by
      simp [triakisFaceStep, triakisFaceStepN]
    rw [hstep]
    have h := ih (triakisFaceStep (vs, es) f).1 (triakisFaceStep (vs, es) f).2
    simpa using h

theorem baseVertices_length : baseVertices.length = 12 := by
  rw [baseVertices, List.length_map, ICO_VERTICES]
  rfl

theorem generateTriakis_fst_length :
    generateTriakisIcosahedron.1.length = triakisN.1 := by
  rw [generateTriakisIcosahedron, triakisN]
  have h := triakis_fold_abs ICO_FACES baseVertices []
  rw [baseVertices_length] at h
  exact h.1

theorem generateTriakis_snd_eq :
    generateTriakisIcosahedron.2 = triakisN.2 := by
  rw [generateTriakisIcosahedron, triakisN]
  have h := triakis_fold_abs ICO_FACES baseVertices []
  rw [baseVertices_length] at h
  exact h.2

/-! ### Claims about the geometry generators. -/

/-- C1: run on their fixed input tables, generateTriakisIcosahedron returns
32 vertices and 90 edges, and generateTruncatedDodecahedron (hardcoded
60-coordinate table, normalization by the maximum raw norm, distance
threshold 2/PHI / maxDist * DUAL_SCALE * 1.1) returns 60 vertices and
exactly 90 edges. -/
theorem claim_C1_generator_sizes :
    generateTriakisIcosahedron.1.length = 32 ∧
    generateTriakisIcosahedron.2.length = 90 ∧
    generateTruncatedDodecahedron.1.length = 60 ∧
    generateTruncatedDodecahedron.2.length = 90 := by
  refine ⟨?_, ?_, ?_, ?_⟩
  · rw [generateTriakis_fst_length]; decide
  · rw [generateTriakis_snd_eq]; decide
  · show dualVertices.length = 60
    exact dualVertices_length
  · show dualEdges.length = 90
    rw [dualEdges_eq_Z]; decide

/-- Two index pairs denote the same unordered vertex pair. -/
def sameUnordered (e f : ℕ × ℕ) : Prop :=
  e = f ∨ (e.1 = f.2 ∧ e.2 = f.1)

instance sameUnordered.instDec : DecidableRel sameUnordered := fun e f =>
  inferInstanceAs (Decidable (e = f ∨ (e.1 = f.2 ∧ e.2 = f.1)))

/-- C2: in each generated edge list no two entries denote the same unordered
vertex pair, and no entry is a self-edge. -/
theorem claim_C2_edges_deduplicated :
    (generateTriakisIcosahedron.2.Pairwise fun e f => ¬ sameUnordered e f) ∧
    (generateTriakisIcosahedron.2.all fun e => decide (e.1 ≠ e.2)) = true ∧
    (generateTruncatedDodecahedron.2.Pairwise fun e f => ¬ sameUnordered e f) ∧
    (generateTruncatedDodecahedron.2.all fun e => decide (e.1 ≠ e.2)) = true := by
  refine ⟨?_, ?_, ?_, ?_⟩
  · rw [generateTriakis_snd_eq]; decide
  · rw [generateTriakis_snd_eq]; decide
  · show dualEdges.Pairwise _
    rw [dualEdges_eq_Z]; decide
  · show (dualEdges.all _) = true
    rw [dualEdges_eq_Z]; decide

/-- C10: every edge [i, j] of either generator satisfies i < j and
j < number of that solid's vertices, so the vertex lookups performed by
render when computing edge endpoints and average depth are in bounds. -/
theorem claim_C10_edge_indices_in_bounds :
    (generateTriakisIcosahedron.2.all fun e =>
      decide (e.1 < e.2) && decide (e.2 < generateTriakisIcosahedron.1.length)) = true ∧
    (generateTruncatedDodecahedron.2.all fun e =>
      decide (e.1 < e.2) && decide (e.2 < generateTruncatedDodecahedron.1.length)) = true := by
  have h1 : generateTriakisIcosahedron.1.length = 32 := by
    rw [generateTriakis_fst_length]; decide
  have h2 : generateTruncatedDodecahedron.1.length = 60 := dualVertices_length
  refine ⟨?_, ?_⟩
  · rw [h1, generateTriakis_snd_eq]; decide
  · rw [h2]
    show (dualEdges.all _) = true
    rw [dualEdges_eq_Z]; decide

/-! ### Claims about the rotation pipeline. -/

/-- C3: the fused closed-form rotatePoint of the optimized version agrees
with applying rotateX, rotateY, rotateZ sequentially in that order, for
every point and every rotation triple. -/
theorem claim_C3_fused_rotation_refines_sequential (p : R3) (r : Rotation) :
    rotatePointFused p r = rotatePoint p r := rfl

theorem norm3_rotateX (p : R3) (a : ℝ) : norm3 (rotateX p a) = norm3 p := by
  simp only [norm3, rotateX]
  congr 1
  linear_combination (p.2.1 * p.2.1 + p.2.2 * p.2.2) * Real.sin_sq_add_cos_sq a

theorem norm3_rotateY (p : R3) (a : ℝ) : norm3 (rotateY p a) = norm3 p := by
  simp only [norm3, rotateY]
  congr 1
  linear_combination (p.1 * p.1 + p.2.2 * p.2.2) * Real.sin_sq_add_cos_sq a

theorem norm3_rotateZ (p : R3) (a : ℝ) : norm3 (rotateZ p a) = norm3 p := by
  simp only [norm3, rotateZ]
  congr 1
  linear_combination (p.1 * p.1 + p.2.1 * p.2.1) * Real.sin_sq_add_cos_sq a

/-- C4: rotation preserves the Euclidean norm, exactly over the reals:
for every point and rotation triple, the norm of rotatePoint(p, r) equals
the norm of p. -/
theorem claim_C4_rotation_preserves_norm (p : R3) (r : Rotation) :
    norm3 (rotatePoint p r) = norm3 p := by
  rw [rotatePoint, norm3_rotateZ, norm3_rotateY, norm3_rotateX]

/-! ### Display mode cycling (claim C7). -/

/-- C7: cycleDisplayMode advances inner to outer to both and back to inner,
and applying it three times from any of the three valid modes returns to
the starting mode. -/
theorem claim_C7_display_mode_three_cycle :
    cycleDisplayMode Mode.inner = Mode.outer ∧
    cycleDisplayMode Mode.outer = Mode.both ∧
    cycleDisplayMode Mode.both = Mode.inner ∧
    cycleDisplayMode (cycleDisplayMode (cycleDisplayMode Mode.inner)) = Mode.inner ∧
    cycleDisplayMode (cycleDisplayMode (cycleDisplayMode Mode.outer)) = Mode.outer ∧
    cycleDisplayMode (cycleDisplayMode (cycleDisplayMode Mode.both)) = Mode.both := by
  decide

/-! ### Interaction state machines.

The v3.0 machine models both js/polyhedron.js (first half) and
src/polyhedron.ts, whose pointer handler bodies are identical; the v3.1
machine models the optimized second half of js/polyhedron.js.  Pointer
coordinates, rotation angles and velocities are rationals; the scheduled
auto-resume timer is modelled by the pendingResume flag (clearTimeout sets
it to false, and the timer firing transition does nothing when it is
false, so a cancelled timer never fires).  config.displayMode is carried
in the state.  The drag test distance > 5 of v3.0 is modelled by the
equivalent squared comparison dx*dx + dy*dy > 25 (both sides of the source
comparison are nonnegative); v3.1 itself compares squared distance with
DRAG_THRESHOLD = 25. -/

/-- Source dragSensitivity = 0.008. -/
def qDragSensitivity : ℚ := 8 / 1000

/-- Interaction state of the v3.0 sources (State record plus
config.displayMode). -/
structure V30State where
  isDragging : Bool
  wasDragging : Bool
  isAutoRotating : Bool
  lastPointer : ℚ × ℚ
  pointerDownPos : ℚ × ℚ
  velocity : ℚ × ℚ
  rotation : ℚ × ℚ × ℚ
  pendingResume : Bool
  displayMode : Mode
deriving DecidableEq

/-- onPointerDown of the v3.0 sources (js/polyhedron.js lines 567-579,
src/polyhedron.ts lines 558-570): record the down position, enter the
dragging state, reset wasDragging, cancel any pending resume timer. -/
def v30PointerDown (pos : ℚ × ℚ) (s : V30State) : V30State :=
  { s with lastPointer := pos, pointerDownPos := pos,
           isDragging := true, wasDragging := false, pendingResume := false }

/-- onPointerMove of the v3.0 sources: past the drag threshold mark the
gesture as a drag and stop auto-rotation; while dragging, apply the pointer
delta to the rotation and overwrite the velocity sample. -/
def v30PointerMove (pos : ℚ × ℚ) (s : V30State) : V30State :=
  if s.isDragging = false then s else
  let dx := pos.1 - s.pointerDownPos.1
  let dy := pos.2 - s.pointerDownPos.2
  let s1 := if dx * dx + dy * dy > 25 then
      { s with wasDragging := true, isAutoRotating := false } else s
  let s2 := if s1.wasDragging then
      { s1 with
        rotation := (s1.rotation.1 + (pos.2 - s1.lastPointer.2) * qDragSensitivity,
          s1.rotation.2.1 + (pos.1 - s1.lastPointer.1) * qDragSensitivity,
          s1.rotation.2.2),
        velocity := ((pos.2 - s1.lastPointer.2) * qDragSensitivity,
          (pos.1 - s1.lastPointer.1) * qDragSensitivity) }
    else s1
  { s2 with lastPointer := pos }

/-- onPointerUp of the v3.0 sources: leave the dragging state; only after an
actual drag schedule the auto-resume timer. -/
def v30PointerUp (s : V30State) : V30State :=
  if s.isDragging = false then s else
  let s1 := { s with isDragging := false }
  if s1.wasDragging then { s1 with pendingResume := true } else s1

/-- The click handler of the v3.0 sources (the anonymous click listener of
js/polyhedron.js lines 640-646 and onClickOrTap of src/polyhedron.ts lines
618-623): cycle the display mode unless the gesture was a drag, then clear
the one-shot wasDragging flag. -/
def v30Click (s : V30State) : V30State :=
  if s.wasDragging = false then
    { s with displayMode := cycleDisplayMode s.displayMode, wasDragging := false }
  else { s with wasDragging := false }

/-- Firing of the v3.0 auto-resume timer: only a still-pending timer turns
auto-rotation back on. -/
def v30ResumeFire (s : V30State) : V30State :=
  if s.pendingResume then { s with isAutoRotating := true, pendingResume := false }
  else s

/-- Interaction state of the optimized v3.1 source. -/
structure V31State where
  isDragging : Bool
  wasDragging : Bool
  didMove : Bool
  isAutoRotating : Bool
  lastX : ℚ
  lastY : ℚ
  downX : ℚ
  downY : ℚ
  velX : ℚ
  velY : ℚ
  rotX : ℚ
  rotY : ℚ
  rotZ : ℚ
  pendingResume : Bool
  displayMode : Mode
deriving DecidableEq

/-- onDown of v3.1 (js/polyhedron.js lines 1265-1275): record the down
position, reset the gesture flags, stop auto-rotation immediately, cancel
any pending resume timer. -/
def v31Down (pos : ℚ × ℚ) (s : V31State) : V31State :=
  { s with lastX := pos.1, downX := pos.1, lastY := pos.2, downY := pos.2,
           isDragging := true, wasDragging := false, didMove := false,
           isAutoRotating := false, pendingResume := false }

/-- onMove of v3.1: mark movement; past the squared threshold mark the drag
and stop auto-rotation; while dragging apply deltas to rotation and
velocity. -/
def v31Move (pos : ℚ × ℚ) (s : V31State) : V31State :=
  if s.isDragging = false then s else
  let dx := pos.1 - s.downX
  let dy := pos.2 - s.downY
  let s0 := { s with didMove := true }
  let s1 := if dx * dx + dy * dy > 25 then
      { s0 with wasDragging := true, isAutoRotating := false } else s0
  let s2 := if s1.wasDragging then
      { s1 with rotY := s1.rotY + (pos.1 - s1.lastX) * qDragSensitivity,
                rotX := s1.rotX + (pos.2 - s1.lastY) * qDragSensitivity,
                velX := (pos.2 - s1.lastY) * qDragSensitivity,
                velY := (pos.1 - s1.lastX) * qDragSensitivity }
    else s1
  { s2 with lastX := pos.1, lastY := pos.2 }

/-- onUp of v3.1 (js/polyhedron.js lines 1302-1331): after a drag schedule
the resume timer; a pure touch tap cycles the display mode and resumes
auto-rotation at once; a mouse release schedules the resume timer and
leaves the click handler to decide; a touch with slight movement just
resumes auto-rotation. -/
def v31Up (isTouchEvent : Bool) (s : V31State) : V31State :=
  if s.isDragging = false then s else
  let s1 := { s with isDragging := false }
  if s1.wasDragging then { s1 with pendingResume := true }
  else if (!s1.didMove && !s1.wasDragging) && isTouchEvent then
    { s1 with displayMode := cycleDisplayMode s1.displayMode,
              isAutoRotating := true }
  else if !isTouchEvent then { s1 with pendingResume := true }
  else { s1 with isAutoRotating := true }

/-- onClick of v3.1 (js/polyhedron.js lines 1333-1346): ignore the click
after any movement or drag; otherwise cycle the display mode, cancel the
pending resume timer and resume auto-rotation, clearing the one-shot
flags. -/
def v31Click (s : V31State) : V31State :=
  if s.didMove || s.wasDragging then { s with wasDragging := false, didMove := false }
  else { s with displayMode := cycleDisplayMode s.displayMode,
                pendingResume := false, isAutoRotating := true,
                wasDragging := false, didMove := false }

/-- Firing of the v3.1 auto-resume timer. -/
def v31ResumeFire (s : V31State) : V31State :=
  if s.pendingResume then { s with isAutoRotating := true, pendingResume := false }
  else s

/-- A v3.0 state in which auto-rotation is running (the state at startup:
rotation {x: 0.5, y: 0.3, z: 0}, auto-rotation on). -/
def v30Demo : V30State :=
  { isDragging := false, wasDragging := false, isAutoRotating := true,
    lastPointer := (0, 0), pointerDownPos := (0, 0), velocity := (0, 0),
    rotation := (1/2, 3/10, 0), pendingResume := false,
    displayMode := Mode.inner }

/-- C5 counterexample: in the v3.0 sources the pointer-down handler does not
stop auto-rotation: from the startup state with auto-rotation on, after
onPointerDown at (100, 100) isAutoRotating is still true, contradicting the
claim that every version stops auto-rotation on pointer-down. -/
theorem claim_C5_counterexample_v30_keeps_autorotating :
    (v30PointerDown (100, 100) v30Demo).isAutoRotating = true := by decide

/-- C5 (amended): after the pointer-down handler runs, in every version the
down position is recorded and any pending auto-resume timer is cancelled
(so it never fires); auto-rotation is stopped immediately only in the
optimized v3.1 version, while the two v3.0 versions leave isAutoRotating
unchanged on pointer-down. -/
theorem claim_C5_pointer_down_effects (pos : ℚ × ℚ) (s30 : V30State)
    (s31 : V31State) :
    (v30PointerDown pos s30).pointerDownPos = pos ∧
    (v30PointerDown pos s30).lastPointer = pos ∧
    (v30PointerDown pos s30).pendingResume = false ∧
    v30ResumeFire (v30PointerDown pos s30) = v30PointerDown pos s30 ∧
    (v30PointerDown pos s30).isAutoRotating = s30.isAutoRotating ∧
    (v31Down pos s31).downX = pos.1 ∧
    (v31Down pos s31).downY = pos.2 ∧
    (v31Down pos s31).lastX = pos.1 ∧
    (v31Down pos s31).lastY = pos.2 ∧
    (v31Down pos s31).pendingResume = false ∧
    v31ResumeFire (v31Down pos s31) = v31Down pos s31 ∧
    (v31Down pos s31).isAutoRotating = false := by
  refine ⟨rfl, rfl, rfl, rfl, rfl, rfl, rfl, rfl, rfl, rfl, rfl, rfl⟩

/-- C6: from any starting state, a pointer-down followed by a pointer-up at
the same coordinates with no intervening pointer-move advances the display
mode by exactly one step and leaves the rotation triple unchanged, in every
version: the v3.0 mouse gesture is mousedown, mouseup, then the
browser-synthesized click (for src/polyhedron.ts a touch tap runs
onPointerUp and then onClickOrTap, the same composite); the v3.1 mouse
gesture is mousedown, mouseup, click, and the v3.1 touch tap is handled
entirely by touchend. -/
theorem claim_C6_tap_cycles_mode_once (pos : ℚ × ℚ) (s30 : V30State)
    (s31 : V31State) :
    (v30Click (v30PointerUp (v30PointerDown pos s30))).displayMode
        = cycleDisplayMode s30.displayMode ∧
    (v30Click (v30PointerUp (v30PointerDown pos s30))).rotation = s30.rotation ∧
    (v31Click (v31Up false (v31Down pos s31))).displayMode
        = cycleDisplayMode s31.displayMode ∧
    (v31Click (v31Up false (v31Down pos s31))).rotX = s31.rotX ∧
    (v31Click (v31Up false (v31Down pos s31))).rotY = s31.rotY ∧
    (v31Click (v31Up false (v31Down pos s31))).rotZ = s31.rotZ ∧
    (v31Up true (v31Down pos s31)).displayMode
        = cycleDisplayMode s31.displayMode ∧
    (v31Up true (v31Down pos s31)).rotX = s31.rotX ∧
    (v31Up true (v31Down pos s31)).rotY = s31.rotY ∧
    (v31Up true (v31Down pos s31)).rotZ = s31.rotZ := by
  refine ⟨rfl, rfl, rfl, rfl, rfl, rfl, rfl, rfl, rfl, rfl⟩

/-! ### The config snapshot accessor (claim C8).

Both versions expose get config() { return { ...config }; }.  The spread
copies every top-level field value; the object-valued autoRotation field
holds a reference, and the spread copies that reference, not the object.
The model makes object identity explicit: autoRotation objects live in a
heap indexed by references, and a ConfigObj stores the reference. -/

/-- Values of an autoRotation object (per-axis rates). -/
structure AutoRotObj where
  x : ℚ
  y : ℚ
  z : ℚ
deriving DecidableEq

/-- Heap of autoRotation objects, indexed by reference. -/
def RotHeap : Type := ℕ → AutoRotObj

/-- The component configuration as a JS object: scalar fields hold values,
the autoRotation field holds a reference into the heap. -/
structure ConfigObj where
  size : ℚ
  scale : ℚ
  displayMode : Mode
  strokeOpacity : ℚ
  autoRotation : ℕ
deriving DecidableEq

/-- The config getter of both versions (js/polyhedron.js lines 858 and
1458): a spread copy of the config object.  Each field value is copied; for
autoRotation the copied value is the reference. -/
def configGetter (c : ConfigObj) : ConfigObj :=
  { size := c.size, scale := c.scale, displayMode := c.displayMode,
    strokeOpacity := c.strokeOpacity, autoRotation := c.autoRotation }

/-- Reading config.autoRotation through the heap, as the animation loop does
each tick. -/
def readAutoRotation (h : RotHeap) (c : ConfigObj) : AutoRotObj :=
  h c.autoRotation

/-- Mutating the x field of the autoRotation object at reference r
(snapshot.autoRotation.x = v in JS). -/
def writeAutoRotationX (h : RotHeap) (r : ℕ) (v : ℚ) : RotHeap :=
  fun r2 => if r2 = r then { h r2 with x := v } else h r2

/-- The default heap: the autoRotation object {x: 0.006, y: 0.010,
z: 0.004} at reference 0. -/
def demoHeap : RotHeap := fun _ => { x := 6/1000, y := 1/100, z := 1/250 }

/-- The default configuration, with autoRotation referring to the heap
object at reference 0. -/
def demoConfig : ConfigObj :=
  { size := 280, scale := 85, displayMode := Mode.inner,
    strokeOpacity := 9/10, autoRotation := 0 }

/-- C8 counterexample: the snapshot returned by the config getter is not
isolated from the live configuration: writing x = 99 through the snapshot's
nested autoRotation object changes the autoRotation values the component
subsequently reads (from x = 0.006 to x = 99), because the spread copy
shares the nested object by reference. -/
theorem claim_C8_counterexample_nested_mutation_visible :
    readAutoRotation
      (writeAutoRotationX demoHeap (configGetter demoConfig).autoRotation 99)
      demoConfig
    ≠ readAutoRotation demoHeap demoConfig := by
  have hL : readAutoRotation
      (writeAutoRotationX demoHeap (configGetter demoConfig).autoRotation 99)
      demoConfig = { x := 99, y := 1/100, z := 1/250 } := by
    rw [readAutoRotation, writeAutoRotationX]
    simp [demoConfig, configGetter, demoHeap]
  have hR : readAutoRotation demoHeap demoConfig =
      { x := 6/1000, y := 1/100, z := 1/250 } := rfl
  rw [hL, hR]
  intro h
  have hx := congrArg AutoRotObj.x h
  norm_num at hx

/-- C8 (amended): the config getter returns a shallow copy: a fresh
top-level object carrying the same field values, so reassigning top-level
fields of the snapshot cannot affect the component, but the nested
autoRotation field is the same object by reference, so mutating one of its
fields through the snapshot changes the configuration the component
subsequently reads. -/
theorem claim_C8_snapshot_is_shallow_copy (c : ConfigObj) (h : RotHeap)
    (v : ℚ) :
    configGetter c = c ∧
    (configGetter c).autoRotation = c.autoRotation ∧
    readAutoRotation (writeAutoRotationX h (configGetter c).autoRotation v) c =
      { readAutoRotation h c with x := v } := by
  refine ⟨rfl, rfl, ?_⟩
  rw [readAutoRotation, readAutoRotation, writeAutoRotationX]
  simp [configGetter]

/-! ### init and its failure path (claim C9). -/

/-- Container argument of init: a lookup key (selector string) or a direct
element reference, possibly null. -/
inductive ContainerArg where
  | byKey : String → ContainerArg
  | byRef : Option ℕ → ContainerArg

/-- Container resolution performed by init: a string argument goes through
document.querySelector, modelled by the dom lookup function; any other
argument is used directly. -/
def resolveContainer (dom : String → Option ℕ) : ContainerArg → Option ℕ
  | ContainerArg.byKey k => dom k
  | ContainerArg.byRef r => r

/-- Observable outcome of init. -/
structure InitOutcome where
  returned : Bool
  loggedError : Bool
  svgCreated : Bool
  listenersBound : Bool
  animationStarted : Bool
deriving DecidableEq

/-- init (js/polyhedron.js lines 684-710, src/polyhedron.ts lines 713-739):
resolve the container; when resolution fails, log an error and return false
before creating the SVG, binding listeners or starting the animation;
otherwise merge the config, create the SVG, bind events, start the
animation and return true.  Both paths return normally: the embedding is a
total function and no exception escapes. -/
def init (dom : String → Option ℕ) (container : ContainerArg) : InitOutcome :=
  match resolveContainer dom container with
  | none =>
    { returned := false, loggedError := true, svgCreated := false,
      listenersBound := false, animationStarted := false }
  | some _ =>
    { returned := true, loggedError := false, svgCreated := true,
      listenersBound := true, animationStarted := true }

/-- C9: init fails exactly when the container cannot be resolved; in that
case it returns false, logs an error, creates no SVG, binds no listeners
and starts no animation (and, being a total function, throws nothing);
with a resolvable container it returns true without logging. -/
theorem claim_C9_init_fails_only_on_unresolvable_container
    (dom : String → Option ℕ) (container : ContainerArg) :
    (resolveContainer dom container = none →
      init dom container =
        { returned := false, loggedError := true, svgCreated := false,
          listenersBound := false, animationStarted := false }) ∧
    (resolveContainer dom container ≠ none →
      (init dom container).returned = true ∧
      (init dom container).loggedError = false) := by
  constructor
  · intro h
    rw [init, h]
  · intro h
    rcases hr : resolveContainer dom container with _ | el
    · exact absurd hr h
    · rw [init, hr]
      exact ⟨rfl, rfl⟩

/-- C9 witness: the failure branch at a missing lookup key and the success
branch at a resolvable one, both at concrete inputs. -/
theorem claim_C9_init_witness :
    init (fun _ => none) (ContainerArg.byKey "#polyhedron-container") =
      { returned := false, loggedError := true, svgCreated := false,
        listenersBound := false, animationStarted := false } ∧
    (init (fun _ => some 0) (ContainerArg.byKey "#polyhedron-container")).returned
      = true := by
  constructor
  · exact (claim_C9_init_fails_only_on_unresolvable_container
      (fun _ => none) (ContainerArg.byKey "#polyhedron-container")).1 rfl
  · exact ((claim_C9_init_fails_only_on_unresolvable_container
      (fun _ => some 0) (ContainerArg.byKey "#polyhedron-container")).2
      (by decide)).1
